import Mathlib

/-!
QueueStride Analytics: live monitoring page and socket provider.

A shallow embedding of the two stateful React components of the front end:

* `src/frontend/src/pages/LiveMonitoringPage.js`: the frame capture and
  submission page (`processFrame`, `autoDetectShelves`, `captureFrame`,
  `onDrop`, `startStreaming`, `stopStreaming` and the buttons that call them);
* `src/frontend/src/contexts/SocketContext.js`: the socket provider with its
  bounded alert history (`alert` handler, `markAlertAsRead`, `clearAlerts`).

React state is passed explicitly.  A function component's closures read the
state values of the render that created them and write through the state
setters; so every embedded function takes the render snapshot `r` it was
created in next to the current state `s` the setters act on.  An `async`
function is split at each `await`: the part before it returns the suspended
continuation as a `Pending` value, the part after it takes the answer of the
awaited promise (`none` for a rejection).
-/

namespace LiveMonitoringPage

/-- One entry of `response.data.results`, with the fields the page renders. -/
structure AnalysisResult where
  shelf_name : String
  stock_level : String
  occupancy_score : Rat
  needs_alert : Bool
  message : String
  deriving DecidableEq, Repr

/-- A browser `File`: `new File([bits], name, { type })`. -/
structure File where
  bits : String
  name : String
  type : String
  deriving DecidableEq, Repr

/-- The six `useState` cells of the page (lines 38-43). -/
structure PageState where
  selectedCamera : String
  isStreaming : Bool
  currentFrame : Option String
  analysisResults : List AnalysisResult
  processing : Bool
  useWebcam : Bool
  deriving DecidableEq, Repr

/-- The initial values given to `useState` (lines 38-43): what the first render sees. -/
def initialState : PageState :=
  { selectedCamera := ""
    isStreaming := false
    currentFrame := none
    analysisResults := []
    processing := false
    useWebcam := true }

/-- The observable calls a handler makes, in program order. -/
inductive Action where
  | alert (msg : String)
  | consoleLog (msg : String)
  | consoleError (msg : String)
  | setCurrentFrame (frame : Option String)
  | setAnalysisResults (results : List AnalysisResult)
  | setProcessing (value : Bool)
  | setIsStreaming (value : Bool)
  | fetch (url : Option String)
  | readAsDataURL (file : File)
  | cvProcessFrame (cameraId : String) (imageFile : File)
  | cvDetectShelves (cameraId : String) (imageFile : File)
  deriving DecidableEq, Repr

/-- A suspended continuation: the promise a handler is waiting for. -/
inductive Pending where
  /-- Line 98: `await cvService.processFrame(selectedCamera, imageFile)`. -/
  | processFrameCall (cameraId : String) (imageFile : File)
  /-- Line 128: `await fetch(currentFrame).then(res => res.blob())`. -/
  | detectFetch (url : String) (cameraId : String)
  /-- Line 131: `await cvService.detectShelves(selectedCamera, file)`. -/
  | detectCall (cameraId : String) (imageFile : File)
  /-- Line 81: `fetch(imageSrc).then(res => res.blob())` in `captureFrame`. -/
  | captureFetch (imageSrc : Option String)
  /-- Line 63: `reader.readAsDataURL(file)` in `onDrop`. -/
  | fileRead (file : File)
  deriving DecidableEq, Repr

/-- What one uninterrupted run of handler code leaves behind. -/
structure Step where
  state : PageState
  log : List Action
  pending : Option Pending
  deriving DecidableEq, Repr

/-- A request to the analysis service (`cvService.processFrame` or
`cvService.detectShelves`). -/
def Action.isServiceCall : Action → Bool
  | .cvProcessFrame _ _ => true
  | .cvDetectShelves _ _ => true
  | _ => false

/-- A call of the `setProcessing` setter. -/
def Action.isSetProcessing : Action → Bool
  | .setProcessing _ => true
  | _ => false

/-- JavaScript truthiness of `currentFrame` (`null` or a string). -/
def frameTruthy : Option String → Bool
  | none => false
  | some url => url != ""

/-- Lines 90-98, `processFrame` up to its `await`: the closure of render `r`
validates `r.selectedCamera`, sets the busy flag and calls the service. -/
def processFrame_enter (r : PageState) (imageFile : File) (s : PageState) : Step :=
  if r.selectedCamera = "" then
    { state := s, log := [.alert "Please select a camera first"], pending := none }
  else
    { state := { s with processing := true }
      log := [.setProcessing true, .cvProcessFrame r.selectedCamera imageFile]
      pending := some (.processFrameCall r.selectedCamera imageFile) }

/-- Lines 99-105, `processFrame` after its `await`: `some results` is
`response.data.results` of a fulfilled call, `none` a rejected one. -/
def processFrame_settle (reply : Option (List AnalysisResult)) (s : PageState) : Step :=
  match reply with
  | some results =>
    { state := { s with analysisResults := results, processing := false }
      log := [.setAnalysisResults results, .setProcessing false]
      pending := none }
  | none =>
    { state := { s with processing := false }
      log := [.consoleError "Error processing frame:", .alert "Error processing frame",
        .setProcessing false]
      pending := none }

/-- Lines 90-106, `processFrame` from call to settlement with nothing in
between: the service answers `reply` to the request, if one is made. -/
def processFrame (r : PageState) (imageFile : File) (reply : Option (List AnalysisResult))
    (s : PageState) : Step :=
  let entered := processFrame_enter r imageFile s
  match entered.pending with
  | none => entered
  | some _ =>
    let settled := processFrame_settle reply entered.state
    { settled with log := entered.log ++ settled.log }

/-- Lines 108-112. -/
def startStreaming (s : PageState) : Step :=
  { state := { s with isStreaming := true }, log := [.setIsStreaming true], pending := none }

/-- Lines 114-117. -/
def stopStreaming (s : PageState) : Step :=
  { state := { s with isStreaming := false, analysisResults := [] }
    log := [.setIsStreaming false, .setAnalysisResults []]
    pending := none }

/-- Lines 119-128, `autoDetectShelves` up to its first `await`. -/
def autoDetectShelves_enter (r : PageState) (s : PageState) : Step :=
  match r.currentFrame with
  | none =>
    { state := s, log := [.alert "Please capture a frame and select a camera first"]
      pending := none }
  | some url =>
    if url = "" ∨ r.selectedCamera = "" then
      { state := s, log := [.alert "Please capture a frame and select a camera first"]
        pending := none }
    else
      { state := { s with processing := true }
        log := [.setProcessing true, .fetch (some url)]
        pending := some (.detectFetch url r.selectedCamera) }

/-- The `catch` and `finally` blocks of `autoDetectShelves` (lines 135-140). -/
def autoDetectShelves_catch (s : PageState) : Step :=
  { state := { s with processing := false }
    log := [.consoleError "Error detecting shelves:", .alert "Error detecting shelves",
      .setProcessing false]
    pending := none }

/-- Lines 128-131, `autoDetectShelves` between its two `await`s: `some blob`
is the fetched frame, `none` a rejected fetch. -/
def autoDetectShelves_fetched (cameraId : String) (reply : Option String) (s : PageState) :
    Step :=
  match reply with
  | some blob =>
    { state := s
      log := [.cvDetectShelves cameraId { bits := blob, name := "frame.jpg", type := "image/jpeg" }]
      pending := some (.detectCall cameraId
        { bits := blob, name := "frame.jpg", type := "image/jpeg" }) }
  | none => autoDetectShelves_catch s

/-- Lines 132-140, `autoDetectShelves` after its second `await`: `some shelves`
is `response.data.detected_shelves`, `none` a rejected call. -/
def autoDetectShelves_settle (reply : Option (List String)) (s : PageState) : Step :=
  match reply with
  | some shelves =>
    { state := { s with processing := false }
      log := [.consoleLog "Detected shelves:",
        .alert ("Detected " ++ toString shelves.length ++ " potential shelves"),
        .setProcessing false]
      pending := none }
  | none => autoDetectShelves_catch s

/-- Lines 119-141, `autoDetectShelves` from call to settlement with nothing in
between: `blob` answers the fetch of the frame and `reply` the service call. -/
def autoDetectShelves (r : PageState) (blob : Option String) (reply : Option (List String))
    (s : PageState) : Step :=
  let entered := autoDetectShelves_enter r s
  match entered.pending with
  | some (.detectFetch _ cameraId) =>
    let fetched := autoDetectShelves_fetched cameraId blob entered.state
    match fetched.pending with
    | some _ =>
      let settled := autoDetectShelves_settle reply fetched.state
      { settled with log := entered.log ++ fetched.log ++ settled.log }
    | none => { fetched with log := entered.log ++ fetched.log }
  | _ => entered

/-- Lines 75-81, `captureFrame` up to the fetch of the screenshot: `webcam` is
`webcamRef.current` (`none` when no `Webcam` is mounted), holding the value its
`getScreenshot()` returns. -/
def captureFrame (webcam : Option (Option String)) (s : PageState) : Step :=
  match webcam with
  | none => { state := s, log := [], pending := none }
  | some imageSrc =>
    { state := { s with currentFrame := imageSrc }
      log := [.setCurrentFrame imageSrc, .fetch imageSrc]
      pending := some (.captureFetch imageSrc) }

/-- Lines 82-86, the `then` chain of `captureFrame`: the blob is wrapped in a
`File` and handed to the `processFrame` of render `r`; a rejected fetch has no
handler. -/
def captureFrame_fetched (r : PageState) (reply : Option String) (s : PageState) : Step :=
  match reply with
  | some blob =>
    processFrame_enter r { bits := blob, name := "webcam-capture.jpg", type := "image/jpeg" } s
  | none => { state := s, log := [], pending := none }

/-- Lines 55-65, `onDrop` up to `reader.readAsDataURL(file)`. -/
def onDrop (acceptedFiles : List File) (s : PageState) : Step :=
  match acceptedFiles.head? with
  | none => { state := s, log := [], pending := none }
  | some file => { state := s, log := [.readAsDataURL file], pending := some (.fileRead file) }

/-- Lines 59-62, `reader.onload`: the data URL becomes the current frame and the
file is handed to the `processFrame` of render `r`. -/
def onDrop_onload (r : PageState) (file : File) (result : String) (s : PageState) : Step :=
  let entered := processFrame_enter r file { s with currentFrame := some result }
  { entered with log := .setCurrentFrame (some result) :: entered.log }

/-- The render whose `processFrame` the memoised callbacks call.  `onDrop` is
`useCallback(..., [])` and `captureFrame` is `useCallback(..., [webcamRef])`
with `webcamRef` the one object `useRef` returns on every render, so neither
callback is ever created again: both keep the closure of the first render,
whose state is `initialState`. -/
def memoRender : PageState := initialState

/-- The page at run time: the React state, the suspended continuations of
handlers that are waiting for a promise, and every call made so far. -/
structure World where
  page : PageState
  tasks : List Pending
  log : List Action
  deriving DecidableEq, Repr

/-- The page after mounting. -/
def World.initial : World := { page := initialState, tasks := [], log := [] }

/-- How a promise settles. -/
inductive Reply where
  | rejected
  | blob (bits : String)
  | dataUrl (url : String)
  | results (results : List AnalysisResult)
  | detected (shelves : List String)
  deriving DecidableEq, Repr

/-- What can happen to the page: the operator uses a control (lines 167-231,
336) or a pending promise settles. -/
inductive Event where
  /-- Line 169: the `Select` changes. -/
  | selectCamera (id : String)
  /-- Line 183: the Webcam button. -/
  | clickWebcam
  /-- Line 190: the Upload button. -/
  | clickUpload
  /-- Lines 201-203: the Start/Stop button. -/
  | clickStartStop
  /-- Lines 209-211: the Capture button; `screenshot` is what `getScreenshot()` returns. -/
  | clickCapture (screenshot : Option String)
  /-- Lines 336, 67-73: files dropped on the upload area. -/
  | dropImage (acceptedFiles : List File)
  /-- Lines 220-222: the Auto Detect Shelves button. -/
  | clickAutoDetect
  /-- The promise of the suspended continuation at position `task` settles. -/
  | settle (task : Nat) (reply : Reply)
  deriving DecidableEq, Repr

/-- A continuation waiting for the analysis service: a request that was
dispatched and is not answered yet. -/
def Pending.isRequest : Pending → Bool
  | .processFrameCall _ _ => true
  | .detectCall _ _ => true
  | _ => false

/-- The number of analysis requests dispatched and not yet answered. -/
def World.inFlight (w : World) : Nat := w.tasks.countP Pending.isRequest

/-- Commit one run of handler code: the continuations in `rest` stay
suspended, a new one is queued behind them. -/
def World.commit (w : World) (rest : List Pending) (st : Step) : World :=
  { page := st.state, tasks := rest ++ st.pending.toList, log := w.log ++ st.log }

/-- Resume the continuation `task` with the answer `reply`; an answer of a
kind the promise cannot give resumes nothing. -/
def resume (task : Pending) (reply : Reply) (s : PageState) : Option Step :=
  match task, reply with
  | .processFrameCall _ _, .results results => some (processFrame_settle (some results) s)
  | .processFrameCall _ _, .rejected => some (processFrame_settle none s)
  | .detectFetch _ cameraId, .blob bits => some (autoDetectShelves_fetched cameraId (some bits) s)
  | .detectFetch _ cameraId, .rejected => some (autoDetectShelves_fetched cameraId none s)
  | .detectCall _ _, .detected shelves => some (autoDetectShelves_settle (some shelves) s)
  | .detectCall _ _, .rejected => some (autoDetectShelves_settle none s)
  | .captureFetch _, .blob bits => some (captureFrame_fetched memoRender (some bits) s)
  | .captureFetch _, .rejected => some (captureFrame_fetched memoRender none s)
  | .fileRead file, .dataUrl url => some (onDrop_onload memoRender file url s)
  | .fileRead _, .rejected => some { state := s, log := [], pending := none }
  | _, _ => none

/-- One event on the page.  A disabled button (lines 203, 211, 222) and an
unmounted upload area (line 303) take no event; the handlers bound inline in
the JSX belong to the current render, the memoised ones to `memoRender`.  The
Refresh button (line 227) reloads the document and so ends the page; it is not
an event of the page. -/
def step (w : World) : Event → World
  | .selectCamera id => { w with page := { w.page with selectedCamera := id } }
  | .clickWebcam => { w with page := { w.page with useWebcam := true } }
  | .clickUpload => { w with page := { w.page with useWebcam := false } }
  | .clickStartStop =>
    if w.page.selectedCamera = "" then w
    else if w.page.isStreaming then w.commit w.tasks (stopStreaming w.page)
    else w.commit w.tasks (startStreaming w.page)
  | .clickCapture screenshot =>
    if w.page.useWebcam = false ∨ w.page.selectedCamera = "" then w
    else w.commit w.tasks (captureFrame (some screenshot) w.page)
  | .dropImage acceptedFiles =>
    if w.page.useWebcam then w
    else w.commit w.tasks (onDrop acceptedFiles w.page)
  | .clickAutoDetect =>
    if frameTruthy w.page.currentFrame = false ∨ w.page.processing then w
    else w.commit w.tasks (autoDetectShelves_enter w.page w.page)
  | .settle task reply =>
    match w.tasks[task]? with
    | none => w
    | some t =>
      match resume t reply w.page with
      | none => w
      | some st => w.commit (w.tasks.eraseIdx task) st

/-- The page after a sequence of events, starting from `w`. -/
def run (w : World) (events : List Event) : World := events.foldl step w

/-- A continuation that runs between `setProcessing(true)` and the `finally`
block that clears the flag again. -/
def Pending.holdsFlag : Pending → Bool
  | .processFrameCall _ _ => true
  | .detectFetch _ _ => true
  | .detectCall _ _ => true
  | _ => false

/-- The busy-flag invariant: the continuations that will clear the flag are
at most one, and none when the flag is not set. -/
def World.FlagCovers (w : World) : Prop :=
  w.tasks.countP Pending.holdsFlag ≤ w.page.processing.toNat

/-- A call of `cvService.processFrame`. -/
def Action.isSubmission : Action → Bool
  | .cvProcessFrame _ _ => true
  | _ => false

/-- A continuation waiting for `cvService.processFrame`. -/
def Pending.isSubmission : Pending → Bool
  | .processFrameCall _ _ => true
  | _ => false

/-- No frame was submitted so far: no call of `cvService.processFrame` was made
and none is pending. -/
def World.NoSubmission (w : World) : Prop :=
  w.tasks.countP Pending.isSubmission + w.log.countP Action.isSubmission = 0

/-- A page with a camera selected, a frame held and an analysis call in flight. -/
def busyState : PageState :=
  { selectedCamera := "cam-1"
    isStreaming := true
    currentFrame := some "data:image/jpeg;base64,AAAA"
    analysisResults := []
    processing := true
    useWebcam := true }

/-- A captured frame. -/
def sampleFile : File := { bits := "AAAA", name := "webcam-capture.jpg", type := "image/jpeg" }

/-- A result entry of the analysis service. -/
def sampleResult : AnalysisResult :=
  { shelf_name := "Shelf A", stock_level := "LOW", occupancy_score := 1 / 4
    needs_alert := true, message := "Restock Shelf A" }

/-- A page that is streaming with a camera selected and one result shown. -/
def streamingWorld : World :=
  { page := { busyState with processing := false, analysisResults := [sampleResult] }
    tasks := []
    log := [] }

end LiveMonitoringPage

namespace SocketContext

/-- The payload of an `alert` event as kept in `alerts`; `read` is absent
(`none`) until `markAlertAsRead` writes it. -/
structure AlertData where
  id : String
  title : String
  message : String
  priority : String
  timestamp : String
  read : Option Bool
  deriving DecidableEq, Repr

/-- Line 47, the state update of the `alert` handler:
`setAlerts(prev => [alertData, ...prev.slice(0, 99)])`. -/
def alertHandler (alertData : AlertData) (prev : List AlertData) : List AlertData :=
  alertData :: prev.take 99

/-- Lines 83-85: `setAlerts([])`. -/
def clearAlerts (_prev : List AlertData) : List AlertData := []

/-- Lines 87-93: `setAlerts(prev => prev.map(alert => alert.id === alertId ?
(alert with read: true) : alert))`. -/
def markAlertAsRead (alertId : String) (prev : List AlertData) : List AlertData :=
  prev.map fun alert => if alert.id = alertId then { alert with read := some true } else alert

/-- The history after the `alert` events `arrivals` came in, oldest first. -/
def receiveAll (arrivals : List AlertData) (prev : List AlertData) : List AlertData :=
  arrivals.foldl (fun history alertData => alertHandler alertData history) prev

/-- The eviction loop in the words of the specification: drop the last entry
as long as the history has more than 100 entries; `fuel` bounds the number of
rounds. -/
def evictLoop : Nat → List AlertData → List AlertData
  | 0, history => history
  | fuel + 1, history =>
    if history.length ≤ 100 then history else evictLoop fuel history.dropLast

/-- The specification of the `alert` event: prepend the alert, then evict from
the tail until the length is at most 100. -/
def prependThenEvict (alertData : AlertData) (history : List AlertData) : List AlertData :=
  evictLoop (alertData :: history).length (alertData :: history)

/-- The socket made by `io('ws://localhost:8000', (auth: (token), transports))`
(lines 26-31): the address and the options of the handshake. -/
structure SocketHandle where
  address : String
  authToken : String
  transports : List String
  deriving DecidableEq, Repr

/-- The `user` object of `useAuth()`; the provider only tests it for presence. -/
structure User where
  username : String
  deriving DecidableEq, Repr

/-- The three `useState` cells of the provider (lines 17-19). -/
structure ChannelState where
  socket : Option SocketHandle
  connected : Bool
  alerts : List AlertData
  deriving DecidableEq, Repr

/-- The initial values given to `useState` (lines 17-19). -/
def ChannelState.initial : ChannelState := { socket := none, connected := false, alerts := [] }

/-- The arguments of `enqueueSnackbar` (lines 50-56). -/
structure Snack where
  content : String
  variant : String
  autoHideDuration : Nat
  deriving DecidableEq, Repr

/-- The observable calls of the provider, in program order. -/
inductive Output where
  | consoleLog (msg : String)
  | enqueueSnackbar (snack : Snack)
  | openSocket (handle : SocketHandle)
  | closeSocket (handle : SocketHandle)
  | emit (handle : SocketHandle) (event : String) (data : String)
  deriving DecidableEq, Repr

/-- What one handler of the provider leaves behind. -/
structure Handled where
  state : ChannelState
  out : List Output
  deriving DecidableEq, Repr

/-- JavaScript truthiness of `token` (`null` or a string). -/
def tokenTruthy : Option String → Bool
  | none => false
  | some t => t != ""

/-- Lines 23-31 and 69, the body of the `useEffect`: with a user and a truthy
token a socket is opened with that token and stored by `setSocket`; otherwise
the effect does nothing. -/
def connectEffect (user : Option User) (token : Option String) (s : ChannelState) : Handled :=
  match user, token with
  | some _, some t =>
    if t = "" then { state := s, out := [] }
    else
      let newSocket : SocketHandle :=
        { address := "ws://localhost:8000", authToken := t, transports := ["websocket"] }
      { state := { s with socket := some newSocket }, out := [.openSocket newSocket] }
  | _, _ => { state := s, out := [] }

/-- Lines 71-73, the cleanup the effect returns for the socket it opened. -/
def connectEffect_cleanup (handle : SocketHandle) (s : ChannelState) : Handled :=
  { state := s, out := [.closeSocket handle] }

/-- Lines 33-36, the `connect` handler. -/
def onConnect (s : ChannelState) : Handled :=
  { state := { s with connected := true }, out := [.consoleLog "WebSocket connected"] }

/-- Lines 38-41, the `disconnect` handler. -/
def onDisconnect (s : ChannelState) : Handled :=
  { state := { s with connected := false }, out := [.consoleLog "WebSocket disconnected"] }

/-- Lines 50-56, the arguments the `alert` handler gives to `enqueueSnackbar`. -/
def alertSnack (alertData : AlertData) : Snack :=
  { content := alertData.title ++ ": " ++ alertData.message
    variant := if alertData.priority = "HIGH" then "error" else "warning"
    autoHideDuration := if alertData.priority = "HIGH" then 10000 else 5000 }

/-- Lines 43-57, the `alert` handler. -/
def onAlert (alertData : AlertData) (s : ChannelState) : Handled :=
  { state := { s with alerts := alertHandler alertData s.alerts }
    out := [.consoleLog "New alert received:", .enqueueSnackbar (alertSnack alertData)] }

/-- Lines 59-62, the `camera_status` handler. -/
def onCameraStatus (_data : String) (s : ChannelState) : Handled :=
  { state := s, out := [.consoleLog "Camera status update:"] }

/-- Lines 64-67, the `shelf_status` handler. -/
def onShelfStatus (_data : String) (s : ChannelState) : Handled :=
  { state := s, out := [.consoleLog "Shelf status update:"] }

/-- Lines 77-81: `if (socket && connected) socket.emit(event, data)`. -/
def sendMessage (event : String) (data : String) (s : ChannelState) : Handled :=
  match s.socket with
  | some handle =>
    if s.connected then { state := s, out := [.emit handle event data] }
    else { state := s, out := [] }
  | none => { state := s, out := [] }

/-- What can happen to the provider: the effect runs for new values of
`useAuth()`, the socket delivers an event, or a consumer calls one of the
functions of the context value. -/
inductive ChannelEvent where
  | authChanged (user : Option User) (token : Option String)
  | connect
  | disconnect
  | alert (alertData : AlertData)
  | cameraStatus (data : String)
  | shelfStatus (data : String)
  | sendMessage (event : String) (data : String)
  | clearAlerts
  | markAlertAsRead (alertId : String)
  deriving DecidableEq, Repr

/-- One event on the provider. -/
def handle (s : ChannelState) : ChannelEvent → Handled
  | .authChanged user token => connectEffect user token s
  | .connect => onConnect s
  | .disconnect => onDisconnect s
  | .alert alertData => onAlert alertData s
  | .cameraStatus data => onCameraStatus data s
  | .shelfStatus data => onShelfStatus data s
  | .sendMessage event data => sendMessage event data s
  | .clearAlerts => { state := { s with alerts := clearAlerts s.alerts }, out := [] }
  | .markAlertAsRead alertId =>
    { state := { s with alerts := markAlertAsRead alertId s.alerts }, out := [] }

/-- The provider state after a sequence of events, starting from `s`. -/
def channelRun (s : ChannelState) (events : List ChannelEvent) : ChannelState :=
  events.foldl (fun state event => (handle state event).state) s

/-- The socket the effect opens for the token `tok`. -/
def socketTok : SocketHandle :=
  { address := "ws://localhost:8000", authToken := "tok", transports := ["websocket"] }

/-- A high-priority alert as pushed by the server. -/
def alertA1 : AlertData :=
  { id := "a1", title := "Shelf empty", message := "Shelf A is empty", priority := "HIGH"
    timestamp := "2024-01-01T10:00:00Z", read := none }

/-- A low-priority alert as pushed by the server. -/
def alertA2 : AlertData :=
  { id := "a2", title := "Shelf low", message := "Shelf B is low", priority := "LOW"
    timestamp := "2024-01-01T10:05:00Z", read := none }

end SocketContext

/-! ## The live monitoring page: submission and detection -/

namespace LiveMonitoringPage

/-- C1, counterexample: on a page whose busy flag is set, `processFrame` and
`autoDetectShelves` called with a selected camera (and a held frame) do not
stop: each of them goes on to call the analysis service. -/
theorem busy_call_still_dispatches :
    busyState.processing = true ∧
    Action.cvProcessFrame "cam-1" sampleFile ∈
      (processFrame busyState sampleFile none busyState).log ∧
    Action.cvDetectShelves "cam-1" { bits := "AAAA", name := "frame.jpg", type := "image/jpeg" } ∈
      (autoDetectShelves busyState (some "AAAA") none busyState).log := by
  simp [processFrame, processFrame_enter, processFrame_settle, autoDetectShelves,
    autoDetectShelves_enter, autoDetectShelves_fetched, autoDetectShelves_settle,
    autoDetectShelves_catch, busyState]

/-- C1, amended: while the busy flag is set the Auto Detect Shelves button is
disabled (line 222), so the operator's click changes nothing: the state, the
suspended continuations and the calls made (no request among them) stay as
they were. -/
theorem autoDetect_disabled_while_processing (w : World) (h : w.page.processing = true) :
    step w .clickAutoDetect = w := by
  simp [step, h]

/-- Witness of the amended C1 on a page with a detection in flight. -/
theorem autoDetect_disabled_while_processing_witness :
    step
      { page := busyState, tasks := [.detectCall "cam-1" sampleFile], log := [] }
      .clickAutoDetect
    = { page := busyState, tasks := [.detectCall "cam-1" sampleFile], log := [] } :=
  autoDetect_disabled_while_processing
    { page := busyState, tasks := [.detectCall "cam-1" sampleFile], log := [] } rfl

/-- Erasing position `i` lowers a count by one exactly when the erased entry
is counted. -/
theorem countP_eraseIdx_add {α : Type} (p : α → Bool) (l : List α) (i : Nat) (t : α)
    (h : l[i]? = some t) :
    (l.eraseIdx i).countP p + (if p t then 1 else 0) = l.countP p := by
  induction l generalizing i with
  | nil => simp at h
  | cons x xs ih =>
    cases i with
    | zero =>
      simp at h
      subst h
      simp [List.countP_cons]
    | succ j =>
      have hj : xs[j]? = some t := by simpa using h
      have := ih j hj
      simp only [List.eraseIdx_cons_succ, List.countP_cons]
      omega

/-- Every event keeps the busy-flag invariant. -/
theorem step_flagCovers (w : World) (e : Event) (h : w.FlagCovers) : (step w e).FlagCovers := by
  unfold World.FlagCovers at h ⊢
  cases e with
  | selectCamera id => simpa [step] using h
  | clickWebcam => simpa [step] using h
  | clickUpload => simpa [step] using h
  | clickStartStop =>
    simp only [step]
    split_ifs <;> simpa [World.commit, stopStreaming, startStreaming] using h
  | clickCapture screenshot =>
    simp only [step]
    split_ifs <;> simpa [World.commit, captureFrame, Pending.holdsFlag] using h
  | dropImage acceptedFiles =>
    simp only [step]
    split_ifs
    · exact h
    · cases hf : acceptedFiles.head? <;>
        simpa [World.commit, onDrop, hf, Pending.holdsFlag] using h
  | clickAutoDetect =>
    simp only [step]
    split_ifs with hd
    · exact h
    · have hp : w.page.processing = false := by
        cases hq : w.page.processing
        · rfl
        · exact absurd (Or.inr hq) hd
      rw [hp, Bool.toNat_false] at h
      have h0 : w.tasks.countP Pending.holdsFlag = 0 := by omega
      cases hc : w.page.currentFrame with
      | none => simp only [World.commit, autoDetectShelves_enter, hc, hp]; simp [h0]
      | some url =>
        by_cases hor : url = "" ∨ w.page.selectedCamera = ""
        · simp only [World.commit, autoDetectShelves_enter, hc, hor, hp]; simp [h0]
        · simp only [World.commit, autoDetectShelves_enter, hc, hor, if_false,
            Option.toList, List.countP_append, h0]
          simp [List.countP_cons, Pending.holdsFlag]
  | settle task reply =>
    simp only [step]
    cases hget : w.tasks[task]? with
    | none => exact h
    | some t =>
      have hc := countP_eraseIdx_add Pending.holdsFlag w.tasks task t hget
      have hb : w.page.processing.toNat ≤ 1 := by cases w.page.processing <;> simp
      cases t <;> cases reply <;>
        simp only [resume, World.commit, processFrame_settle, autoDetectShelves_fetched,
          autoDetectShelves_settle, autoDetectShelves_catch, captureFrame_fetched,
          onDrop_onload, processFrame_enter, memoRender, initialState, Pending.holdsFlag,
          Option.toList, List.append_nil, List.countP_append, List.countP_cons,
          List.countP_nil, Bool.toNat_false, if_true, if_false, reduceIte,
          Bool.false_eq_true] at hc ⊢ <;>
        omega

/-- Every sequence of events keeps the busy-flag invariant. -/
theorem run_flagCovers (events : List Event) (w : World) (h : w.FlagCovers) :
    (run w events).FlagCovers := by
  induction events generalizing w with
  | nil => exact h
  | cons e es ih => exact ih (step w e) (step_flagCovers w e h)

/-- A pending request is a continuation that holds the flag. -/
theorem inFlight_le_holdsFlag (w : World) :
    w.inFlight ≤ w.tasks.countP Pending.holdsFlag := by
  unfold World.inFlight
  apply List.countP_mono_left
  intro t _ ht
  cases t <;> simp_all [Pending.isRequest, Pending.holdsFlag]

/-- C2: in every state reachable from the mounted page by operator events
(select camera, Webcam/Upload, Start/Stop, Capture, drop, Auto Detect) and
settling promises in any order, at most one analysis request is dispatched and
not yet answered.  The Auto Detect Shelves button is disabled while
`processing` is set, and the memoised `captureFrame` and `onDrop` run the
`processFrame` of the first render, which stops at its validation. -/
theorem at_most_one_in_flight (events : List Event) :
    (run World.initial events).inFlight ≤ 1 := by
  have h0 : World.initial.FlagCovers := by
    simp [World.FlagCovers, World.initial]
  have h1 := run_flagCovers events World.initial h0
  have h2 := inFlight_le_holdsFlag (run World.initial events)
  have hb : (run World.initial events).page.processing.toNat ≤ 1 := by
    cases (run World.initial events).page.processing <;> simp
  unfold World.FlagCovers at h1
  omega

/-- The bound of C2 is reached: after selecting a camera, capturing a frame
and clicking Auto Detect Shelves, one detection request is in flight. -/
theorem one_in_flight_reachable :
    (run World.initial [.selectCamera "cam-1", .clickCapture (some "data:,x"),
      .clickAutoDetect, .settle 1 (.blob "x")]).inFlight = 1 := by
  decide

/-- C3: with an empty selected camera id, `processFrame` ends at its validation:
it only shows the alert "Please select a camera first", makes no call to the
analysis service, suspends nothing and leaves the whole state (so also
`analysisResults` and `processing`) as it was. -/
theorem processFrame_empty_camera (r s : PageState) (imageFile : File)
    (reply : Option (List AnalysisResult)) (h : r.selectedCamera = "") :
    (processFrame r imageFile reply s).log = [.alert "Please select a camera first"] ∧
    (∀ a ∈ (processFrame r imageFile reply s).log, a.isServiceCall = false) ∧
    (processFrame r imageFile reply s).pending = none ∧
    (processFrame r imageFile reply s).state = s ∧
    (processFrame r imageFile reply s).state.analysisResults = s.analysisResults ∧
    (processFrame r imageFile reply s).state.processing = s.processing := by
  simp [processFrame, processFrame_enter, h, Action.isServiceCall]

/-- Witness of C3 at the page right after mounting. -/
theorem processFrame_empty_camera_witness :
    initialState.selectedCamera = "" ∧
    (processFrame initialState sampleFile (some [sampleResult]) initialState).state
      = initialState :=
  ⟨rfl, (processFrame_empty_camera initialState initialState sampleFile
    (some [sampleResult]) rfl).2.2.2.1⟩

/-- C4: a submission with a non-empty camera id that the service answers with
the list `L` ends with `analysisResults = L`, whatever the result set was
before; the same holds when the state changed while the request was pending,
since the continuation overwrites the result set with `L`. -/
theorem processFrame_success_replaces (r s : PageState) (imageFile : File)
    (L : List AnalysisResult) (h : r.selectedCamera ≠ "") :
    Action.cvProcessFrame r.selectedCamera imageFile ∈ (processFrame r imageFile (some L) s).log ∧
    (processFrame r imageFile (some L) s).pending = none ∧
    (processFrame r imageFile (some L) s).state.analysisResults = L ∧
    ∀ s2 : PageState, (processFrame_settle (some L) s2).state.analysisResults = L := by
  simp [processFrame, processFrame_enter, processFrame_settle, h]

/-- Witness of C4: a prior result set of one entry is replaced by a list of two. -/
theorem processFrame_success_replaces_witness :
    busyState.selectedCamera ≠ "" ∧
    (processFrame busyState sampleFile (some [sampleResult, sampleResult])
      { busyState with analysisResults := [{ sampleResult with shelf_name := "Old" }] }
      ).state.analysisResults = [sampleResult, sampleResult] :=
  ⟨by decide, (processFrame_success_replaces busyState
    { busyState with analysisResults := [{ sampleResult with shelf_name := "Old" }] }
    sampleFile [sampleResult, sampleResult] (by decide)).2.2.1⟩

/-- C5: when the service call made by `processFrame` is rejected, the call
concludes with `analysisResults` equal to its value before the call; the
continuation alone keeps the result set it finds as well. -/
theorem processFrame_failure_keeps_results (r s : PageState) (imageFile : File)
    (h : r.selectedCamera ≠ "") :
    Action.cvProcessFrame r.selectedCamera imageFile ∈ (processFrame r imageFile none s).log ∧
    (processFrame r imageFile none s).pending = none ∧
    (processFrame r imageFile none s).state.analysisResults = s.analysisResults ∧
    ∀ s2 : PageState, (processFrame_settle none s2).state.analysisResults = s2.analysisResults := by
  simp [processFrame, processFrame_enter, processFrame_settle, h]

/-- Witness of C5 on a page holding one result. -/
theorem processFrame_failure_keeps_results_witness :
    busyState.selectedCamera ≠ "" ∧
    (processFrame busyState sampleFile none
      { busyState with analysisResults := [sampleResult] }).state.analysisResults
      = [sampleResult] :=
  ⟨by decide, (processFrame_failure_keeps_results busyState
    { busyState with analysisResults := [sampleResult] } sampleFile (by decide)).2.2.1⟩

/-- C6: a `processFrame` or `autoDetectShelves` call that passes validation
concludes (nothing stays suspended) with `processing = false`, whether the
fetch and the service call are fulfilled or rejected, and every continuation
clears the flag in whatever state it resumes; a call that stops at validation
never calls `setProcessing` and leaves the flag as it was. -/
theorem processing_cleared_on_every_exit (r s : PageState) (imageFile : File)
    (reply : Option (List AnalysisResult)) (blob : Option String)
    (shelves : Option (List String)) :
    (r.selectedCamera ≠ "" →
      (processFrame r imageFile reply s).pending = none ∧
      (processFrame r imageFile reply s).state.processing = false) ∧
    (frameTruthy r.currentFrame = true → r.selectedCamera ≠ "" →
      (autoDetectShelves r blob shelves s).pending = none ∧
      (autoDetectShelves r blob shelves s).state.processing = false) ∧
    (r.selectedCamera = "" →
      (∀ a ∈ (processFrame r imageFile reply s).log, a.isSetProcessing = false) ∧
      (processFrame r imageFile reply s).state.processing = s.processing) ∧
    (frameTruthy r.currentFrame = false ∨ r.selectedCamera = "" →
      (∀ a ∈ (autoDetectShelves r blob shelves s).log, a.isSetProcessing = false) ∧
      (autoDetectShelves r blob shelves s).state.processing = s.processing) ∧
    (∀ (s2 : PageState) (cameraId : String),
      (processFrame_settle reply s2).state.processing = false ∧
      (autoDetectShelves_fetched cameraId none s2).state.processing = false ∧
      (autoDetectShelves_settle shelves s2).state.processing = false) := by
  refine ⟨?_, ?_, ?_, ?_, ?_⟩
  · intro h
    cases reply <;> simp [processFrame, processFrame_enter, processFrame_settle, h]
  · intro hf h
    cases hc : r.currentFrame with
    | none => simp [hc, frameTruthy] at hf
    | some url =>
      have hu : url ≠ "" := by simpa [hc, frameTruthy] using hf
      cases blob <;> cases shelves <;>
        simp [autoDetectShelves, autoDetectShelves_enter, autoDetectShelves_fetched,
          autoDetectShelves_settle, autoDetectShelves_catch, hc, hu, h]
  · intro h
    simp [processFrame, processFrame_enter, h, Action.isSetProcessing]
  · intro h
    cases hc : r.currentFrame with
    | none => simp [autoDetectShelves, autoDetectShelves_enter, hc, Action.isSetProcessing]
    | some url =>
      have hor : url = "" ∨ r.selectedCamera = "" := by
        rcases h with h | h
        · left
          simpa [hc, frameTruthy] using h
        · exact Or.inr h
      simp [autoDetectShelves, autoDetectShelves_enter, hc, hor, Action.isSetProcessing]
  · intro s2 cameraId
    cases reply <;> cases shelves <;>
      simp [processFrame_settle, autoDetectShelves_fetched, autoDetectShelves_settle,
        autoDetectShelves_catch]

/-- Witness of C6: a submission and a detection that the service rejects, begun
with the flag set, both end with the flag cleared. -/
theorem processing_cleared_on_every_exit_witness :
    busyState.selectedCamera ≠ "" ∧ frameTruthy busyState.currentFrame = true ∧
    (processFrame busyState sampleFile none busyState).state.processing = false ∧
    (autoDetectShelves busyState (some "AAAA") none busyState).state.processing = false :=
  ⟨by decide, by decide,
    ((processing_cleared_on_every_exit busyState busyState sampleFile none (some "AAAA")
      none).1 (by decide)).2,
    ((processing_cleared_on_every_exit busyState busyState sampleFile none (some "AAAA")
      none).2.1 (by decide) (by decide)).2⟩

/-- C7: with an empty selected camera id or with no frame held,
`autoDetectShelves` ends at its validation: it only shows the alert "Please
capture a frame and select a camera first", fetches nothing, makes no call to
the analysis service, suspends nothing and leaves the whole state (so also
`processing` and `analysisResults`) as it was. -/
theorem autoDetectShelves_validation (r s : PageState) (blob : Option String)
    (shelves : Option (List String)) (h : r.selectedCamera = "" ∨ r.currentFrame = none) :
    (autoDetectShelves r blob shelves s).log =
      [.alert "Please capture a frame and select a camera first"] ∧
    (∀ a ∈ (autoDetectShelves r blob shelves s).log, a.isServiceCall = false) ∧
    (autoDetectShelves r blob shelves s).pending = none ∧
    (autoDetectShelves r blob shelves s).state = s ∧
    (autoDetectShelves r blob shelves s).state.processing = s.processing ∧
    (autoDetectShelves r blob shelves s).state.analysisResults = s.analysisResults := by
  cases hc : r.currentFrame with
  | none => simp [autoDetectShelves, autoDetectShelves_enter, hc, Action.isServiceCall]
  | some url =>
    have hcam : r.selectedCamera = "" := by
      rcases h with h | h
      · exact h
      · simp [hc] at h
    simp [autoDetectShelves, autoDetectShelves_enter, hc, hcam, Action.isServiceCall]

/-- Witness of C7: a camera is selected but no frame was captured yet. -/
theorem autoDetectShelves_validation_witness :
    ({ initialState with selectedCamera := "cam-1" } : PageState).currentFrame = none ∧
    (autoDetectShelves { initialState with selectedCamera := "cam-1" } (some "AAAA")
      (some ["shelf"]) { initialState with selectedCamera := "cam-1" }).log =
      [.alert "Please capture a frame and select a camera first"] :=
  ⟨rfl, (autoDetectShelves_validation { initialState with selectedCamera := "cam-1" }
    { initialState with selectedCamera := "cam-1" } (some "AAAA") (some ["shelf"])
    (Or.inr rfl)).1⟩

end LiveMonitoringPage

/-! ## The socket provider: alert history -/

namespace SocketContext

/-- Taking at most 100 entries does not see whether the tail behind a new head
was cut to 99 entries before. -/
theorem take_append_cons_take (front rest : List AlertData) (a : AlertData) :
    (front ++ a :: rest.take 99).take 100 = (front ++ a :: rest).take 100 := by
  rw [List.take_append_eq_append_take, List.take_append_eq_append_take]
  congr 1
  cases hm : 100 - front.length with
  | zero => rfl
  | succ k =>
    have hk : k ≤ 99 := by omega
    simp [List.take_take, Nat.min_eq_left hk]

/-- The history after a run of `alert` events is the newest 100 entries of the
arrivals, newest first, followed by what was there before. -/
theorem receiveAll_eq_take (arrivals prev : List AlertData) (hprev : prev.length ≤ 100) :
    receiveAll arrivals prev = (arrivals.reverse ++ prev).take 100 := by
  induction arrivals generalizing prev with
  | nil => simp [receiveAll, List.take_of_length_le hprev]
  | cons a rest ih =>
    have hstep : receiveAll (a :: rest) prev = receiveAll rest (alertHandler a prev) := rfl
    have hlen : (alertHandler a prev).length ≤ 100 := by
      simp only [alertHandler, List.length_cons, List.length_take]
      omega
    rw [hstep, ih (alertHandler a prev) hlen]
    simp only [alertHandler, List.reverse_cons, List.append_assoc, List.singleton_append]
    exact take_append_cons_take rest.reverse prev a

/-- C8: after the alerts `arrivals` (oldest first) came in on an empty history,
the history is the first 100 entries of the reversed arrivals: it has
`min N 100` entries and entry `i` is arrival number `N - i` (counted from 1). -/
theorem alert_history_newest_first (arrivals : List AlertData) :
    receiveAll arrivals [] = arrivals.reverse.take 100 ∧
    (receiveAll arrivals []).length = min arrivals.length 100 ∧
    ∀ i, i < min arrivals.length 100 →
      (receiveAll arrivals [])[i]? = arrivals[arrivals.length - 1 - i]? := by
  have heq : receiveAll arrivals [] = arrivals.reverse.take 100 := by
    simpa using receiveAll_eq_take arrivals [] (by simp)
  refine ⟨heq, ?_, ?_⟩
  · rw [heq, List.length_take, List.length_reverse, Nat.min_comm]
  · intro i hi
    have h1 : i < 100 := lt_of_lt_of_le hi (Nat.min_le_right _ _)
    have h2 : i < arrivals.length := lt_of_lt_of_le hi (Nat.min_le_left _ _)
    rw [heq, List.getElem?_take_of_lt h1, List.getElem?_reverse h2]

/-- Witness of C8: `alertA1` then `alertA2` arrive; the newest one is at index 0. -/
theorem alert_history_newest_first_witness :
    0 < min [alertA1, alertA2].length 100 ∧
    (receiveAll [alertA1, alertA2] [])[0]? = some alertA2 :=
  ⟨by decide, (alert_history_newest_first [alertA1, alertA2]).2.2 0 (by decide)⟩

/-- The eviction loop with enough fuel keeps the first 100 entries. -/
theorem evictLoop_eq_take (fuel : Nat) (history : List AlertData)
    (h : history.length ≤ fuel + 100) : evictLoop fuel history = history.take 100 := by
  induction fuel generalizing history with
  | zero =>
    rw [List.take_of_length_le (by omega)]
    rfl
  | succ n ih =>
    unfold evictLoop
    split_ifs with hle
    · rw [List.take_of_length_le hle]
    · have hlen : history.dropLast.length ≤ n + 100 := by
        rw [List.length_dropLast]
        omega
      rw [ih history.dropLast hlen, List.dropLast_eq_take, List.take_take]
      congr 1
      omega

/-- C9: the `alert` handler computes what the specification describes: its
result `alertData :: prev.take 99` is the history obtained by prepending the
alert and dropping entries from the tail until at most 100 are left, for every
history.  On a history of exactly 100 entries the result has 100 entries again
and differs from `alertData :: prev` by the one entry at index 100, the oldest
one; the others follow the new alert in their old order. -/
theorem alertHandler_refines_eviction (alertData : AlertData) (prev : List AlertData) :
    alertHandler alertData prev = prependThenEvict alertData prev ∧
    (prev.length = 100 →
      (alertHandler alertData prev).length = 100 ∧
      ∃ oldest, (alertData :: prev)[100]? = some oldest ∧
        alertData :: prev = alertHandler alertData prev ++ [oldest]) := by
  constructor
  · unfold prependThenEvict
    rw [evictLoop_eq_take _ _ (by omega)]
    simp [alertHandler]
  · intro hlen
    constructor
    · simp [alertHandler, List.length_take, hlen]
    · have h99 : 99 < prev.length := by omega
      refine ⟨prev[99], ?_, ?_⟩
      · rw [List.getElem?_cons_succ]
        exact List.getElem?_eq_getElem h99
      · have htake : prev.take 100 = prev.take 99 ++ prev[99]?.toList := List.take_succ
        rw [List.take_of_length_le (by omega), List.getElem?_eq_getElem h99] at htake
        simp only [alertHandler, List.cons_append]
        rw [← Option.toList_some, ← htake]

/-- Witness of C9: a full history of 100 entries stays at 100 entries. -/
theorem alertHandler_refines_eviction_witness :
    (List.replicate 100 alertA1).length = 100 ∧
    (alertHandler alertA2 (List.replicate 100 alertA1)).length = 100 :=
  ⟨List.length_replicate 100 alertA1,
    ((alertHandler_refines_eviction alertA2 (List.replicate 100 alertA1)).2
      (List.length_replicate 100 alertA1)).1⟩

/-- C10: `markAlertAsRead x` keeps the length and the order of the history;
an entry whose id is `x` becomes the same entry with `read = true`, an entry
with another id stays as it is, so nothing but `read` fields differs from
before, and a history without an entry of id `x` is returned unchanged. -/
theorem markAlertAsRead_spec (x : String) (h : List AlertData) :
    (markAlertAsRead x h).length = h.length ∧
    (∀ (i : Nat) (a : AlertData), h[i]? = some a →
      (a.id = x → (markAlertAsRead x h)[i]? = some { a with read := some true }) ∧
      (a.id ≠ x → (markAlertAsRead x h)[i]? = some a)) ∧
    (markAlertAsRead x h).map (fun a => (a.id, a.title, a.message, a.priority, a.timestamp))
      = h.map (fun a => (a.id, a.title, a.message, a.priority, a.timestamp)) ∧
    ((∀ a ∈ h, a.id ≠ x) → markAlertAsRead x h = h) := by
  refine ⟨by simp [markAlertAsRead], ?_, ?_, ?_⟩
  · intro i a hi
    constructor
    · intro hid
      simp [markAlertAsRead, List.getElem?_map, hi, hid]
    · intro hid
      simp [markAlertAsRead, List.getElem?_map, hi, hid]
  · simp only [markAlertAsRead, List.map_map]
    apply List.map_congr_left
    intro a _
    by_cases hid : a.id = x <;> simp [hid]
  · intro hno
    unfold markAlertAsRead
    conv_rhs => rw [← List.map_id h]
    apply List.map_congr_left
    intro a ha
    simp [hno a ha]

/-- Witness of C10: in the history `[alertA2, alertA1]`, acknowledging `a1`
marks the entry at index 1 as read. -/
theorem markAlertAsRead_spec_witness :
    [alertA2, alertA1][1]? = some alertA1 ∧ alertA1.id = "a1" ∧
    (markAlertAsRead "a1" [alertA2, alertA1])[1]? = some { alertA1 with read := some true } :=
  ⟨rfl, rfl, ((markAlertAsRead_spec "a1" [alertA2, alertA1]).2.1 1 alertA1 rfl).1 rfl⟩

end SocketContext

/-! ## The socket provider: acknowledging, clearing, sending, connecting -/

namespace SocketContext

/-- C11: `markAlertAsRead` is idempotent: acknowledging the id `x` a second
time gives the history the first call gave. -/
theorem markAlertAsRead_idempotent (x : String) (h : List AlertData) :
    markAlertAsRead x (markAlertAsRead x h) = markAlertAsRead x h := by
  simp only [markAlertAsRead, List.map_map]
  apply List.map_congr_left
  intro a _
  by_cases hid : a.id = x <;> simp [hid]

/-- C12: `clearAlerts` yields the empty history whatever the history held,
as a function and as an event on the provider, which changes nothing else. -/
theorem clearAlerts_yields_empty (s : ChannelState) :
    clearAlerts s.alerts = [] ∧
    (handle s .clearAlerts).state.alerts = [] ∧
    (handle s .clearAlerts).state.socket = s.socket ∧
    (handle s .clearAlerts).state.connected = s.connected := by
  simp [handle, clearAlerts]

/-- C13: `sendMessage` never changes the provider state; it emits the event
with its payload on the socket when a socket exists and `connected` is set, and
it does nothing at all (no call, no error) in every other state. -/
theorem sendMessage_emits_iff_connected (event data : String) (s : ChannelState) :
    (sendMessage event data s).state = s ∧
    (∀ socket, s.socket = some socket → s.connected = true →
      (sendMessage event data s).out = [.emit socket event data]) ∧
    (s.socket = none ∨ s.connected = false → (sendMessage event data s).out = []) ∧
    ((sendMessage event data s).out ≠ [] ↔ s.socket.isSome = true ∧ s.connected = true) := by
  cases hs : s.socket <;> cases hc : s.connected <;> simp [sendMessage, hs, hc]

/-- Witness of C13: connected with a socket the event is emitted, after a
`disconnect` it is dropped. -/
theorem sendMessage_emits_iff_connected_witness :
    (sendMessage "ping" "1" { socket := some socketTok, connected := true, alerts := [] }).out =
      [.emit socketTok "ping" "1"] ∧
    (sendMessage "ping" "1" { socket := some socketTok, connected := false, alerts := [] }).out
      = [] :=
  ⟨(sendMessage_emits_iff_connected "ping" "1" _).2.1 _ rfl rfl,
    (sendMessage_emits_iff_connected "ping" "1" _).2.2.1 (Or.inr rfl)⟩

/-- C14: the `alert` handler shows one snackbar whose text is
`title ++ ": " ++ message`; priority `HIGH` gives variant `error` for 10000 ms,
every other priority gives variant `warning` for 5000 ms, so variant and
display time depend on the priority alone and a `HIGH` alert is shown strictly
longer than any other. -/
theorem alertSnack_salience (alertData other : AlertData) (s : ChannelState) :
    (onAlert alertData s).out =
      [.consoleLog "New alert received:", .enqueueSnackbar (alertSnack alertData)] ∧
    (alertSnack alertData).content = alertData.title ++ ": " ++ alertData.message ∧
    (alertData.priority = "HIGH" →
      (alertSnack alertData).variant = "error" ∧
      (alertSnack alertData).autoHideDuration = 10000) ∧
    (alertData.priority ≠ "HIGH" →
      (alertSnack alertData).variant = "warning" ∧
      (alertSnack alertData).autoHideDuration = 5000) ∧
    (alertData.priority = other.priority →
      (alertSnack alertData).variant = (alertSnack other).variant ∧
      (alertSnack alertData).autoHideDuration = (alertSnack other).autoHideDuration) ∧
    (alertData.priority = "HIGH" → other.priority ≠ "HIGH" →
      (alertSnack other).autoHideDuration < (alertSnack alertData).autoHideDuration) := by
  refine ⟨rfl, rfl, ?_, ?_, ?_, ?_⟩
  · intro h
    simp [alertSnack, h]
  · intro h
    simp [alertSnack, h]
  · intro h
    simp [alertSnack, h]
  · intro h1 h2
    simp [alertSnack, h1, h2]

/-- Witness of C14 on a `HIGH` and a `LOW` alert. -/
theorem alertSnack_salience_witness :
    alertA1.priority = "HIGH" ∧ alertA2.priority ≠ "HIGH" ∧
    (alertSnack alertA1).variant = "error" ∧
    (alertSnack alertA2).autoHideDuration < (alertSnack alertA1).autoHideDuration :=
  ⟨rfl, by decide,
    ((alertSnack_salience alertA1 alertA2 ChannelState.initial).2.2.1 rfl).1,
    (alertSnack_salience alertA1 alertA2 ChannelState.initial).2.2.2.2.2 rfl (by decide)⟩

/-- C15: the effect opens a socket exactly when `user` is present and `token`
is truthy; the socket it opens carries that token in its handshake and is the
only call made; with no token nothing is opened and nothing changes. -/
theorem connectEffect_iff_credential (user : Option User) (token : Option String)
    (s : ChannelState) :
    ((∃ socket, Output.openSocket socket ∈ (connectEffect user token s).out) ↔
      (user.isSome = true ∧ tokenTruthy token = true)) ∧
    (∀ socket, Output.openSocket socket ∈ (connectEffect user token s).out →
      token = some socket.authToken ∧
      (connectEffect user token s).out = [.openSocket socket] ∧
      (connectEffect user token s).state.socket = some socket) ∧
    (token = none →
      (connectEffect user token s).out = [] ∧ (connectEffect user token s).state = s) := by
  cases user with
  | none => simp [connectEffect]
  | some u =>
    cases token with
    | none => simp [connectEffect, tokenTruthy]
    | some t =>
      by_cases ht : t = ""
      · simp [connectEffect, ht, tokenTruthy]
      · simp [connectEffect, ht, tokenTruthy]

/-- Witness of C15: with a user and the token `tok` the handshake carries `tok`. -/
theorem connectEffect_iff_credential_witness :
    (connectEffect (some { username := "ada" }) (some "tok") ChannelState.initial).out =
      [.openSocket socketTok] :=
  ((connectEffect_iff_credential (some { username := "ada" }) (some "tok")
    ChannelState.initial).2.1 socketTok (by decide)).2.1

/-- Every event other than an `alert` push, an acknowledgement and a clear
leaves the history as it is. -/
theorem handle_alerts (s : ChannelState) (e : ChannelEvent) :
    (handle s e).state.alerts = s.alerts ∨
    (∃ alertData, e = .alert alertData ∧
      (handle s e).state.alerts = alertHandler alertData s.alerts) ∨
    (∃ alertId, e = .markAlertAsRead alertId ∧
      (handle s e).state.alerts = markAlertAsRead alertId s.alerts) ∨
    (e = .clearAlerts ∧ (handle s e).state.alerts = []) := by
  cases e with
  | authChanged user token =>
    left
    simp only [handle, connectEffect]
    split
    · split <;> rfl
    · rfl
  | connect => exact Or.inl rfl
  | disconnect => exact Or.inl rfl
  | alert alertData => exact Or.inr (Or.inl ⟨alertData, rfl, rfl⟩)
  | cameraStatus data => exact Or.inl rfl
  | shelfStatus data => exact Or.inl rfl
  | sendMessage event data =>
    left
    simp only [handle, sendMessage]
    split
    · split <;> rfl
    · rfl
  | clearAlerts => exact Or.inr (Or.inr (Or.inr ⟨rfl, rfl⟩))
  | markAlertAsRead alertId => exact Or.inr (Or.inr (Or.inl ⟨alertId, rfl, rfl⟩))

/-- One event keeps a history of at most 100 entries at most 100 entries long. -/
theorem handle_alerts_length (s : ChannelState) (e : ChannelEvent)
    (h : s.alerts.length ≤ 100) : (handle s e).state.alerts.length ≤ 100 := by
  rcases handle_alerts s e with h1 | ⟨a, _, h1⟩ | ⟨x, _, h1⟩ | ⟨_, h1⟩
  · rw [h1]
    exact h
  · rw [h1]
    simp only [alertHandler, List.length_cons, List.length_take]
    omega
  · rw [h1]
    simpa [markAlertAsRead] using h
  · rw [h1]
    simp

/-- C16: the history holds at most 100 entries: initially, after every single
event on the provider when it did before, and so in every state reached from
the initial one by any sequence of events. -/
theorem alerts_never_exceed_100 :
    ChannelState.initial.alerts.length ≤ 100 ∧
    (∀ (s : ChannelState) (e : ChannelEvent),
      s.alerts.length ≤ 100 → (handle s e).state.alerts.length ≤ 100) ∧
    ∀ events : List ChannelEvent,
      (channelRun ChannelState.initial events).alerts.length ≤ 100 := by
  refine ⟨by simp [ChannelState.initial], handle_alerts_length, ?_⟩
  have hrun : ∀ (events : List ChannelEvent) (s : ChannelState),
      s.alerts.length ≤ 100 → (channelRun s events).alerts.length ≤ 100 := by
    intro events
    induction events with
    | nil => exact fun s h => h
    | cons e es ih => exact fun s h => ih (handle s e).state (handle_alerts_length s e h)
  exact fun events => hrun events ChannelState.initial (by simp [ChannelState.initial])

/-- Witness of C16: a full history receives one more alert. -/
theorem alerts_never_exceed_100_witness :
    (handle { socket := none, connected := true, alerts := List.replicate 100 alertA1 }
      (.alert alertA2)).state.alerts.length ≤ 100 :=
  alerts_never_exceed_100.2.1
    { socket := none, connected := true, alerts := List.replicate 100 alertA1 }
    (.alert alertA2) (by simp)

/-- C17: the `camera_status` and `shelf_status` handlers leave the whole
provider state, and so the history, as it is; `connect`, `disconnect`,
`sendMessage` and the connection effect leave the history as it is; an event
that changes the history is an `alert` push, an acknowledgement or a clear. -/
theorem status_events_not_buffered (s : ChannelState) (data event : String)
    (user : Option User) (token : Option String) :
    (onCameraStatus data s).state = s ∧
    (onShelfStatus data s).state = s ∧
    (onConnect s).state.alerts = s.alerts ∧
    (onDisconnect s).state.alerts = s.alerts ∧
    (sendMessage event data s).state.alerts = s.alerts ∧
    (connectEffect user token s).state.alerts = s.alerts ∧
    ∀ e : ChannelEvent, (handle s e).state.alerts = s.alerts ∨
      (∃ alertData, e = .alert alertData) ∨ (∃ alertId, e = .markAlertAsRead alertId) ∨
      e = .clearAlerts := by
  refine ⟨rfl, rfl, rfl, rfl, ?_, ?_, ?_⟩
  · simpa [handle] using (handle_alerts s (.sendMessage event data)).resolve_right (by simp)
  · simpa [handle] using (handle_alerts s (.authChanged user token)).resolve_right (by simp)
  · intro e
    rcases handle_alerts s e with h1 | ⟨a, h1, _⟩ | ⟨x, h1, _⟩ | ⟨h1, _⟩
    · exact Or.inl h1
    · exact Or.inr (Or.inl ⟨a, h1⟩)
    · exact Or.inr (Or.inr (Or.inl ⟨x, h1⟩))
    · exact Or.inr (Or.inr (Or.inr h1))

end SocketContext

/-! ## The live monitoring page: what changes the result set, what a capture submits -/

namespace LiveMonitoringPage

/-- C18, counterexample: on a streaming page that shows one result, the Stop
button (`stopStreaming`, line 116) empties the result set. -/
theorem stopStreaming_clears_results :
    streamingWorld.page.analysisResults = [sampleResult] ∧
    (stopStreaming streamingWorld.page).state.analysisResults = [] ∧
    (step streamingWorld .clickStartStop).page.analysisResults = [] := by
  refine ⟨rfl, rfl, ?_⟩
  simp [step, streamingWorld, busyState, World.commit, stopStreaming]

/-- C18, amended: the result set changes only by a successful submission or by
stopping the stream, which empties it.  Every event on the page leaves
`analysisResults` as it was, unless it is the Stop click or the fulfilment of
a pending `processFrame` request; and `startStreaming`, `captureFrame`,
`onDrop`, a `processFrame` call that stops at validation or is rejected, and
`autoDetectShelves` on every outcome leave it as it was. -/
theorem analysisResults_changed_only_by (w : World) (e : Event) :
    ((step w e).page.analysisResults = w.page.analysisResults ∨
      (e = .clickStartStop ∧ w.page.isStreaming = true ∧
        (step w e).page.analysisResults = []) ∨
      (∃ task results cameraId imageFile, e = .settle task (.results results) ∧
        w.tasks[task]? = some (.processFrameCall cameraId imageFile) ∧
        (step w e).page.analysisResults = results)) ∧
    (startStreaming w.page).state.analysisResults = w.page.analysisResults ∧
    (stopStreaming w.page).state.analysisResults = [] ∧
    (∀ webcam, (captureFrame webcam w.page).state.analysisResults = w.page.analysisResults) ∧
    (∀ files, (onDrop files w.page).state.analysisResults = w.page.analysisResults) ∧
    (∀ r imageFile, (processFrame r imageFile none w.page).state.analysisResults
      = w.page.analysisResults) ∧
    (∀ r blob reply, (autoDetectShelves r blob reply w.page).state.analysisResults
      = w.page.analysisResults) := by
  refine ⟨?_, rfl, rfl, ?_, ?_, ?_, ?_⟩
  · cases e with
    | selectCamera id => exact Or.inl rfl
    | clickWebcam => exact Or.inl rfl
    | clickUpload => exact Or.inl rfl
    | clickStartStop =>
      by_cases h1 : w.page.selectedCamera = ""
      · left
        simp [step, h1]
      · by_cases h2 : w.page.isStreaming = true
        · right
          left
          refine ⟨rfl, h2, ?_⟩
          simp [step, h1, h2, World.commit, stopStreaming]
        · left
          simp [step, h1, h2, World.commit, startStreaming]
    | clickCapture screenshot =>
      left
      simp only [step]
      split_ifs <;> rfl
    | dropImage acceptedFiles =>
      left
      simp only [step]
      split_ifs
      · rfl
      · cases hf : acceptedFiles.head? <;> simp [World.commit, onDrop, hf]
    | clickAutoDetect =>
      left
      simp only [step]
      split_ifs
      · rfl
      · simp only [World.commit, autoDetectShelves_enter]
        split
        · rfl
        · split <;> rfl
    | settle task reply =>
      simp only [step]
      cases hget : w.tasks[task]? with
      | none => exact Or.inl rfl
      | some t =>
        cases t with
        | processFrameCall cameraId imageFile =>
          cases reply with
          | results results =>
            exact Or.inr (Or.inr ⟨task, results, cameraId, imageFile, rfl, hget, rfl⟩)
          | _ => exact Or.inl rfl
        | detectFetch url cameraId => cases reply <;> exact Or.inl rfl
        | detectCall cameraId imageFile => cases reply <;> exact Or.inl rfl
        | captureFetch imageSrc => cases reply <;> exact Or.inl rfl
        | fileRead file => cases reply <;> exact Or.inl rfl
  · intro webcam
    cases webcam <;> rfl
  · intro files
    simp only [onDrop]
    split <;> rfl
  · intro r imageFile
    by_cases h : r.selectedCamera = "" <;>
      simp [processFrame, processFrame_enter, processFrame_settle, h]
  · intro r blob reply
    cases hc : r.currentFrame with
    | none => simp [autoDetectShelves, autoDetectShelves_enter, hc]
    | some url =>
      by_cases hor : url = "" ∨ r.selectedCamera = ""
      · simp [autoDetectShelves, autoDetectShelves_enter, hc, hor]
      · cases blob <;> cases reply <;>
          simp [autoDetectShelves, autoDetectShelves_enter, autoDetectShelves_fetched,
            autoDetectShelves_settle, autoDetectShelves_catch, hc, hor]

/-- Every event keeps the page free of submissions: the only callers of
`processFrame` are the memoised callbacks, which stop at its validation. -/
theorem step_noSubmission (w : World) (e : Event) (h : w.NoSubmission) :
    (step w e).NoSubmission := by
  unfold World.NoSubmission at h ⊢
  cases e with
  | selectCamera id => exact h
  | clickWebcam => exact h
  | clickUpload => exact h
  | clickStartStop =>
    simp only [step]
    split_ifs
    · exact h
    all_goals
      simp only [World.commit, stopStreaming, startStreaming, Option.toList, List.append_nil,
        List.countP_append, List.countP_cons, List.countP_nil, Action.isSubmission,
        Bool.false_eq_true, if_false]
      omega
  | clickCapture screenshot =>
    simp only [step]
    split_ifs
    · exact h
    · simp only [World.commit, captureFrame, Option.toList, List.countP_append,
        List.countP_cons, List.countP_nil, Action.isSubmission, Pending.isSubmission,
        Bool.false_eq_true, if_false]
      omega
  | dropImage acceptedFiles =>
    simp only [step]
    split_ifs
    · exact h
    · cases hf : acceptedFiles.head? <;>
        simp only [World.commit, onDrop, hf, Option.toList, List.append_nil,
          List.countP_append, List.countP_cons, List.countP_nil, Action.isSubmission,
          Pending.isSubmission, Bool.false_eq_true, if_false] <;>
        omega
  | clickAutoDetect =>
    simp only [step]
    split_ifs
    · exact h
    · simp only [World.commit, autoDetectShelves_enter]
      split
      · simp only [Option.toList, List.append_nil, List.countP_append, List.countP_cons,
          List.countP_nil, Action.isSubmission, Bool.false_eq_true, if_false]
        omega
      · split <;>
          simp only [Option.toList, List.append_nil, List.countP_append, List.countP_cons,
            List.countP_nil, Action.isSubmission, Pending.isSubmission, Bool.false_eq_true,
            if_false] <;>
          omega
  | settle task reply =>
    simp only [step]
    cases hget : w.tasks[task]? with
    | none => exact h
    | some t =>
      have hc := countP_eraseIdx_add Pending.isSubmission w.tasks task t hget
      cases t <;> cases reply <;>
        simp only [resume, World.commit, processFrame_settle, autoDetectShelves_fetched,
          autoDetectShelves_settle, autoDetectShelves_catch, captureFrame_fetched,
          onDrop_onload, processFrame_enter, memoRender, initialState, Pending.isSubmission,
          Action.isSubmission, Option.toList, List.append_nil, List.countP_append,
          List.countP_cons, List.countP_nil, if_true, if_false, reduceIte,
          Bool.false_eq_true] at hc ⊢ <;>
        omega

/-- In no state reachable from the mounted page was `cvService.processFrame`
ever called: whatever the operator selects, captures or drops, the call log
holds no submission. -/
theorem submission_never_dispatched (events : List Event) (cameraId : String)
    (imageFile : File) :
    Action.cvProcessFrame cameraId imageFile ∉ (run World.initial events).log := by
  have hrun : ∀ (events : List Event) (w : World), w.NoSubmission →
      (run w events).NoSubmission := by
    intro events
    induction events with
    | nil => exact fun w h => h
    | cons e es ih => exact fun w h => ih (step w e) (step_noSubmission w e h)
  have h := hrun events World.initial (by simp [World.NoSubmission, World.initial])
  unfold World.NoSubmission at h
  have h0 : (run World.initial events).log.countP Action.isSubmission = 0 := by omega
  intro hmem
  have hpos := List.countP_pos_iff.mpr ⟨_, hmem, (rfl : Action.isSubmission
    (Action.cvProcessFrame cameraId imageFile) = true)⟩
  omega

/-- C19, the code at the failing input: the operator selects `cam-1` and then
captures a frame, or switches to Upload and drops an image.  In both runs the
memoised callback reaches the validation of the first render's `processFrame`:
the page shows "Please select a camera first", `cvService.processFrame` is not
called and no request is in flight. -/
theorem capture_after_select_dispatches_nothing :
    (run World.initial [.selectCamera "cam-1", .clickCapture (some "data:,x"),
      .settle 0 (.blob "x")]).log =
      [.setCurrentFrame (some "data:,x"), .fetch (some "data:,x"),
        .alert "Please select a camera first"] ∧
    (run World.initial [.selectCamera "cam-1", .clickCapture (some "data:,x"),
      .settle 0 (.blob "x")]).inFlight = 0 ∧
    (run World.initial [.selectCamera "cam-1", .clickUpload, .dropImage [sampleFile],
      .settle 0 (.dataUrl "data:,x")]).log =
      [.readAsDataURL sampleFile, .setCurrentFrame (some "data:,x"),
        .alert "Please select a camera first"] ∧
    (run World.initial [.selectCamera "cam-1", .clickUpload, .dropImage [sampleFile],
      .settle 0 (.dataUrl "data:,x")]).inFlight = 0 := by
  decide

end LiveMonitoringPage
